import Mathlib

/-!
Shallow embedding of the byov-tts-server request pipeline (src/app.py).

The server exposes three endpoints; the two with logic are modelled here:
* `GET /voices`    — `list_voices`: scans the storage root for voice
  directories and lists every variation backed by a `.wav`/`.txt` pair;
* `POST /generate` — `generate_speech`: resolves a variation, checks the
  reference files, validates the text, normalizes the seed, invokes the
  synthesis engine and writes the waveform to a temporary file that is
  returned with a background-task deleting it after transmission.

The filesystem is modelled as the contents of the storage root (`VOICES_DIR`):
a flag for the root's existence and the list of its immediate entries, each
entry carrying its name, whether it is a directory, and the files it holds.
The external engine calls (`preprocess_ref_audio_text`, `infer_process`) and
the encoder (`sf.write`) are opaque collaborators; their outcome for the
request at hand is supplied as an `EngineEnv`, along with the value produced
by `np.random.randint` and the name `tempfile` picked for the artifact.
-/

namespace ByovTts

/-- A regular file inside a voice directory: its full name (with extension)
and its content. -/
structure ChildFile where
  name : String
  content : String
deriving Repr, DecidableEq

/-- An immediate entry of the storage root: a candidate voice directory
(or a stray regular file, `isDir = false`). -/
structure RootEntry where
  name : String
  isDir : Bool
  files : List ChildFile
deriving Repr, DecidableEq

/-- State of the storage root (`VOICES_DIR`). -/
structure Storage where
  rootExists : Bool
  entries : List RootEntry
deriving Repr, DecidableEq

/-- Python `str.strip()` on its default (whitespace) set, over code points:
leading and trailing whitespace characters are removed. -/
def pyStrip (s : String) : String :=
  String.mk (((s.data.dropWhile Char.isWhitespace).reverse.dropWhile Char.isWhitespace).reverse)

/-- String suffix test over code points (the shape `glob("*.wav")` requires
of a matching name). -/
def strEndsWith (s suffix : String) : Bool :=
  s.data.reverse.take suffix.data.length == suffix.data.reverse

/-- `pathlib.Path.stem` for a name matched by `glob("*.wav")`: the name
minus its final `.wav` suffix, except that the bare name `".wav"` has no
suffix in pathlib and is its own stem. -/
def wavStem (fname : String) : String :=
  if fname == ".wav" then fname else String.mk (fname.data.take (fname.data.length - 4))

/-- `(voice_dir / f"{stem}.txt").exists()` within the modelled directory. -/
def hasTxtSidecar (e : RootEntry) (stem : String) : Bool :=
  (e.files.find? (fun f => f.name == stem ++ ".txt")).isSome

/-- The loop body of `list_voices` for one directory: every `*.wav` file
whose same-named `.txt` sidecar exists contributes its stem as a variation. -/
def entryVariations (e : RootEntry) : List String :=
  e.files.filterMap (fun f =>
    if strEndsWith f.name ".wav" then
      if hasTxtSidecar e (wavStem f.name) then some (wavStem f.name) else none
    else none)

/-- One element of the `/voices` JSON payload. -/
structure VoiceProfile where
  voice_id : String
  variations : List String
deriving Repr, DecidableEq

/-- `GET /voices` (src/app.py, `list_voices`): an absent root yields the
empty catalog; otherwise each subdirectory with at least one qualifying
variation is listed. -/
def list_voices (s : Storage) : List VoiceProfile :=
  if !s.rootExists then []
  else
    s.entries.filterMap (fun e =>
      if e.isDir then
        if entryVariations e != [] then some ⟨e.name, entryVariations e⟩ else none
      else none)

/-- The parsed body of a `POST /generate` request (pydantic model
`GenerateRequest`).  `seed` is `Optional[int]` with default `-1`: a body
omitting the field parses to `some (-1)`, an explicit JSON `null` parses to
`none`.  `speed`, `nfe_step`, `cross_fade_duration` and `remove_silence`
are pass-through parameters the handler never inspects. -/
structure GenerateRequest where
  voice_id : String
  text : String
  variation : Option String
  speed : Float
  nfe_step : Int
  cross_fade_duration : Float
  seed : Option Int
  remove_silence : Bool

/-- `(Path(VOICES_DIR) / voice_id).exists()`.  Joining the empty string in
pathlib leaves the path unchanged, so an empty `voice_id` makes the check
fall back to the root itself; otherwise any root entry of that name (file
or directory) makes `exists()` true. -/
def voiceDirExists (s : Storage) (vid : String) : Bool :=
  s.rootExists && (vid == "" || (s.entries.find? (fun e => e.name == vid)).isSome)

/-- `(Path(VOICES_DIR) / voice_id / fname).exists()`.  With an empty
`voice_id` the path collapses to `root / fname`; otherwise the named root
entry must be a directory holding `fname`. -/
def fileExistsUnder (s : Storage) (vid fname : String) : Bool :=
  if !s.rootExists then false
  else if vid == "" then
    (s.entries.find? (fun e => e.name == fname)).isSome
  else
    match s.entries.find? (fun e => e.name == vid) with
    | some e => e.isDir && (e.files.find? (fun f => f.name == fname)).isSome
    | none => false

/-- The handler's observable HTTP outcome: a `FileResponse` (path, media
type, suggested filename) or an `HTTPException` (status, detail). -/
inductive Response where
  | file (path : String) (mediaType : String) (filename : String)
  | error (status : Nat) (detail : String)
deriving Repr, DecidableEq

/-- Outcome of one `/generate` call together with the artifact bookkeeping:
whether the temporary file was created (`NamedTemporaryFile` entered with
`delete=False`), and whether its deletion was scheduled (the `background`
callback of the returned `FileResponse`, run after transmission). -/
structure GenResult where
  response : Response
  tmpCreated : Bool
  cleanupScheduled : Bool
deriving Repr, DecidableEq

/-- Whether the temporary artifact is still on disk once the request has
fully completed (response sent or exception delivered, background task
run if one was scheduled). -/
def tmpRemainsAfterCompletion (r : GenResult) : Bool :=
  r.tmpCreated && !r.cleanupScheduled

/-- Upper bound handed to `np.random.randint(0, 2**31 - 1)`.  numpy's
`randint` excludes its high bound, so draws lie in `[0, 2^31 - 2]`. -/
def npRandintHi : Nat := 2 ^ 31 - 1

/-- A value `np.random.randint(0, npRandintHi)` can actually return. -/
def validDraw (d : Nat) : Prop := d < npRandintHi

instance (d : Nat) : Decidable (validDraw d) := by
  unfold validDraw; infer_instance

/-- Seed normalization inside the `try` block: an out-of-range seed is
replaced by the fresh numpy draw, an in-range one is used verbatim. -/
def resolveSeed (s : Int) (draw : Nat) : Int :=
  if s < 0 || s > 2 ^ 31 - 1 then (draw : Int) else s

/-- `str(e)` for the `TypeError` raised by `seed < 0` when `seed` is `None`. -/
def noneLtErrorMsg : String := "'<' not supported between instances of 'NoneType' and 'int'"

/-- The seed-setting step: `seed = request.seed; if seed < 0 or ...`.
A `None` seed makes the comparison raise a `TypeError` inside the `try`
block; otherwise the resolved seed is produced. -/
def setSeedStep (seed : Option Int) (draw : Nat) : Except String Int :=
  match seed with
  | none => Except.error noneLtErrorMsg
  | some s => Except.ok (resolveSeed s draw)

/-- Per-request behavior of the opaque collaborators invoked inside the
`try` block: the reference-audio preprocessing, the inference call, the
encoder writing the temporary file, the numpy draw, and the temporary
file name chosen by `tempfile`. -/
structure EngineEnv where
  preprocessOutcome : Except String Unit
  inferOutcome : Except String Unit
  writeOutcome : Except String Unit
  randDraw : Nat
  tmpName : String

/-- Line 113 of src/app.py: `variation = request.variation or request.voice_id`.
Python `or` falls back on every falsy value, so both an omitted variation
(`None`) and an explicit empty string resolve to `voice_id`. -/
def resolvedVariation (req : GenerateRequest) : String :=
  match req.variation with
  | some v => if v == "" then req.voice_id else v
  | none => req.voice_id

/-- `POST /generate` (src/app.py, `generate_speech`), translated
statement by statement.  `variation` resolves through Python `or`
(both `None` and `""` fall back to `voice_id`); the three existence
checks and the text check run in source order before the `try` block;
inside it any raised exception is caught and re-raised as a 500 whose
detail prefixes the original message, and the temporary file is created
before the encoder runs and unlinked only by the background callback of
a successfully returned `FileResponse`. -/
def generate_speech (s : Storage) (req : GenerateRequest) (env : EngineEnv) : GenResult :=
  if !(voiceDirExists s req.voice_id) then
    ⟨.error 404 ("Voice ID '" ++ req.voice_id ++ "' not found"), false, false⟩
  else if !(fileExistsUnder s req.voice_id (resolvedVariation req ++ ".wav")) then
    ⟨.error 404 ("Variation '" ++ resolvedVariation req ++ "' not found for voice '" ++
        req.voice_id ++ "'"),
      false, false⟩
  else if !(fileExistsUnder s req.voice_id (resolvedVariation req ++ ".txt")) then
    ⟨.error 404 ("Reference text file not found for variation '" ++ resolvedVariation req ++ "'"),
      false, false⟩
  else if req.text == "" || pyStrip req.text == "" then
    ⟨.error 400 "Text parameter is required and cannot be empty", false, false⟩
  else
    match setSeedStep req.seed env.randDraw with
    | .error m => ⟨.error 500 ("Model inference error: " ++ m), false, false⟩
    | .ok _ =>
      match env.preprocessOutcome with
      | .error m => ⟨.error 500 ("Model inference error: " ++ m), false, false⟩
      | .ok _ =>
        match env.inferOutcome with
        | .error m => ⟨.error 500 ("Model inference error: " ++ m), false, false⟩
        | .ok _ =>
          match env.writeOutcome with
          | .error m => ⟨.error 500 ("Model inference error: " ++ m), true, false⟩
          | .ok _ =>
            ⟨.file env.tmpName "audio/wav"
                (req.voice_id ++ "_" ++ resolvedVariation req ++ ".wav"),
              true, true⟩

/-! Concrete fixtures used to exercise the model: the storage layout of the
spec's scenario 1 (voice `alice` with a complete `alice` pair and a stray
`formal.wav` lacking its sidecar), engine environments for the successful
and the failing encoder, and a handful of request bodies. -/

/-- Voice directory `alice` holding the pair `alice.wav`/`alice.txt` and a
stray `formal.wav` without a text sidecar. -/
def aliceDir : RootEntry :=
  ⟨"alice", true,
    [⟨"alice.wav", "RIFFWAVEdata"⟩, ⟨"alice.txt", "Reference transcript."⟩,
     ⟨"formal.wav", "RIFFWAVEdata2"⟩]⟩

/-- Storage root containing only the `alice` directory. -/
def exStorage : Storage := ⟨true, [aliceDir]⟩

/-- Storage whose root directory does not exist. -/
def noRootStorage : Storage := ⟨false, []⟩

/-- Engine environment in which every collaborator succeeds. -/
def exEnvOk : EngineEnv := ⟨.ok (), .ok (), .ok (), 42, "/tmp/tmpk3j9q1x7.wav"⟩

/-- Engine environment in which `sf.write` raises after the temporary file
has been created. -/
def envWriteFails : EngineEnv :=
  ⟨.ok (), .ok (), .error "Format not recognised.", 42, "/tmp/tmpk3j9q1x7.wav"⟩

/-- A well-formed request for voice `alice` with the variation omitted. -/
def reqAliceHello : GenerateRequest :=
  ⟨"alice", "Hello world", none, 1.0, 32, 0.15, some (-1), false⟩

/-- Request for voice `alice` with empty text. -/
def reqAliceBlank : GenerateRequest :=
  ⟨"alice", "", none, 1.0, 32, 0.15, some (-1), false⟩

/-- Request for voice `alice` with whitespace-only text. -/
def reqAliceSpaces : GenerateRequest :=
  ⟨"alice", "   ", none, 1.0, 32, 0.15, some (-1), false⟩

/-- Request with an empty `voice_id`. -/
def reqEmptyVoice : GenerateRequest :=
  ⟨"", "Hello", none, 1.0, 32, 0.15, some (-1), false⟩

/-- Request for the absent voice `bob`, with empty text. -/
def reqBobBlank : GenerateRequest :=
  ⟨"bob", "", none, 1.0, 32, 0.15, some (-1), false⟩

/-- Request for voice `alice` whose JSON body set `seed` to `null`. -/
def reqNullSeed : GenerateRequest :=
  ⟨"alice", "Hello world", none, 1.0, 32, 0.15, none, false⟩

/-! Theorems settling the claims. -/

/-- C8: when the configured storage root directory does not exist,
`list_voices` returns the empty catalog (the `/voices` payload lists no
voices) instead of raising an error: the handler returns before touching
the filesystem any further. -/
theorem list_voices_missing_root (s : Storage) (h : s.rootExists = false) :
    list_voices s = [] := by
  unfold list_voices
  rw [h]
  rfl

/-- Witness for C8 at a concrete storage whose root is absent. -/
theorem list_voices_missing_root_witness :
    noRootStorage.rootExists = false ∧ list_voices noRootStorage = [] :=
  ⟨rfl, list_voices_missing_root noRootStorage rfl⟩

/-- C6: whenever the voice directory is absent (`voice_dir.exists()` is
false), `/generate` fails with a 404 whose detail names the requested
`voice_id`, whatever the text content — the existence checks run before the
text validation, and no artifact is created. -/
theorem generate_unknown_voice (s : Storage) (req : GenerateRequest) (env : EngineEnv)
    (h : voiceDirExists s req.voice_id = false) :
    generate_speech s req env =
      ⟨.error 404 ("Voice ID '" ++ req.voice_id ++ "' not found"), false, false⟩ := by
  unfold generate_speech
  simp [h]

/-- Witness for C6: requesting the absent voice `bob` with empty text still
yields the 404 naming `bob`, not the text-validation 400. -/
theorem generate_unknown_voice_witness :
    voiceDirExists exStorage reqBobBlank.voice_id = false ∧
    generate_speech exStorage reqBobBlank exEnvOk =
      ⟨.error 404 "Voice ID 'bob' not found", false, false⟩ :=
  ⟨by decide, generate_unknown_voice exStorage reqBobBlank exEnvOk (by decide)⟩

/-- C7: when the voice directory, the reference audio and the reference text
sidecar all exist but the text is empty or trims to the empty string, the
handler answers 400 with the detail naming the text requirement, no engine
step runs and no temporary artifact is created (the result does not depend
on the engine environment, and `tmpCreated` is false). -/
theorem generate_blank_text (s : Storage) (req : GenerateRequest) (env : EngineEnv)
    (hdir : voiceDirExists s req.voice_id = true)
    (hwav : fileExistsUnder s req.voice_id (resolvedVariation req ++ ".wav") = true)
    (htxt : fileExistsUnder s req.voice_id (resolvedVariation req ++ ".txt") = true)
    (hblank : pyStrip req.text = "") :
    generate_speech s req env =
      ⟨.error 400 "Text parameter is required and cannot be empty", false, false⟩ := by
  unfold generate_speech
  simp [hdir, hwav, htxt, hblank]

/-- Witness for C7: whitespace-only text against the fully populated voice
`alice` yields the 400. -/
theorem generate_blank_text_witness :
    voiceDirExists exStorage reqAliceSpaces.voice_id = true ∧
    fileExistsUnder exStorage reqAliceSpaces.voice_id (resolvedVariation reqAliceSpaces ++ ".wav") = true ∧
    fileExistsUnder exStorage reqAliceSpaces.voice_id (resolvedVariation reqAliceSpaces ++ ".txt") = true ∧
    pyStrip reqAliceSpaces.text = "" ∧
    generate_speech exStorage reqAliceSpaces exEnvOk =
      ⟨.error 400 "Text parameter is required and cannot be empty", false, false⟩ :=
  ⟨by decide, by decide, by decide, by decide,
    generate_blank_text exStorage reqAliceSpaces exEnvOk (by decide) (by decide) (by decide)
      (by decide)⟩

/-- C1: the temp-file cleanup is only attached as the background callback of
a successfully returned `FileResponse`; when the encoder raises after
`NamedTemporaryFile(delete=False)` has created the file, the handler
re-raises a 500 without unlinking, so the artifact remains on disk after
the request completes — contradicting the every-exit-path deletion
guarantee. -/
theorem generate_tmp_leak_on_write_failure :
    generate_speech exStorage reqAliceHello envWriteFails =
      ⟨.error 500 "Model inference error: Format not recognised.", true, false⟩ ∧
    tmpRemainsAfterCompletion (generate_speech exStorage reqAliceHello envWriteFails) = true ∧
    tmpRemainsAfterCompletion (generate_speech exStorage reqAliceHello exEnvOk) = false := by
  refine ⟨by decide, by decide, by decide⟩

/-- C3 counterexample: the handler never validates `voice_id`; with an
empty `voice_id` against the populated storage root the request passes the
voice-directory check (the empty path segment collapses to the root) and
fails inside catalog resolution with a 404 for the missing `.wav`, not with
an InvalidArgument-class 400. -/
theorem generate_empty_voice_id_counterexample :
    generate_speech exStorage reqEmptyVoice exEnvOk =
      ⟨.error 404 "Variation '' not found for voice ''", false, false⟩ := by
  decide

/-- C3 amended: an empty `voice_id` is not rejected by any validation; when
the storage root exists the voice-directory existence check passes (the
empty segment resolves the directory to the root itself), and when no entry
named `.wav` sits at the root the request fails with the 404 naming the
empty variation — catalog resolution ran, and no InvalidArgument error was
produced. -/
theorem generate_empty_voice_id (s : Storage) (req : GenerateRequest) (env : EngineEnv)
    (hvid : req.voice_id = "")
    (hvar : req.variation = none)
    (hroot : s.rootExists = true)
    (hnowav : fileExistsUnder s "" ".wav" = false) :
    voiceDirExists s req.voice_id = true ∧
    generate_speech s req env =
      ⟨.error 404 "Variation '' not found for voice ''", false, false⟩ := by
  have hdir : voiceDirExists s req.voice_id = true := by
    unfold voiceDirExists
    simp [hvid, hroot]
  refine ⟨hdir, ?_⟩
  have hres : resolvedVariation req = "" := by
    unfold resolvedVariation
    rw [hvar, hvid]
  unfold generate_speech
  rw [hres, hdir, hvid]
  simp [hnowav]

/-- Witness for the C3 amended theorem at the concrete empty-voice request. -/
theorem generate_empty_voice_id_witness :
    reqEmptyVoice.voice_id = "" ∧ reqEmptyVoice.variation = none ∧
    exStorage.rootExists = true ∧ fileExistsUnder exStorage "" ".wav" = false ∧
    (voiceDirExists exStorage reqEmptyVoice.voice_id = true ∧
      generate_speech exStorage reqEmptyVoice exEnvOk =
        ⟨.error 404 "Variation '' not found for voice ''", false, false⟩) :=
  ⟨rfl, rfl, rfl, by decide,
    generate_empty_voice_id exStorage reqEmptyVoice exEnvOk rfl rfl rfl (by decide)⟩

/-- C2 counterexample: with the default seed `-1` the replacement seed is
the numpy draw itself, and `np.random.randint(0, 2**31 - 1)` excludes its
high bound, so the value `2^31 - 1` can never be drawn — the fresh seed is
not distributed over all of `[0, 2^31 - 1]` as claimed. -/
theorem resolveSeed_top_value_unreachable :
    resolveSeed (-1) 0 = 0 ∧
    ¬ ∃ d : Nat, validDraw d ∧ resolveSeed (-1) d = 2 ^ 31 - 1 := by
  constructor
  · decide
  · rintro ⟨d, hd, he⟩
    unfold resolveSeed at he
    norm_num at he
    unfold validDraw npRandintHi at hd
    omega

/-- C2 amended: an out-of-range seed (negative, or above `2^31 - 1`) is
replaced by the fresh numpy draw, which ranges uniformly over
`[0, 2^31 - 2]` (numpy's `randint` excludes the high bound `2^31 - 1`):
the resolved seed equals the draw, lies in `[0, 2^31 - 2]`, and every value
of that interval arises from exactly the draw equal to it; an in-range seed
is used verbatim. -/
theorem seed_normalization (sd : Int) (d : Nat) (hd : validDraw d) :
    ((sd < 0 ∨ sd > 2 ^ 31 - 1) →
      resolveSeed sd d = (d : Int) ∧
      0 ≤ resolveSeed sd d ∧ resolveSeed sd d ≤ 2 ^ 31 - 2 ∧
      (∀ v : Nat, v ≤ 2 ^ 31 - 2 → ∃ d2 : Nat, validDraw d2 ∧ resolveSeed sd d2 = (v : Int))) ∧
    (0 ≤ sd → sd ≤ 2 ^ 31 - 1 → resolveSeed sd d = sd) := by
  unfold validDraw npRandintHi at hd
  constructor
  · intro hout
    have hcond : (sd < 0 || sd > 2 ^ 31 - 1) = true := by
      simp only [Bool.or_eq_true, decide_eq_true_eq]
      rcases hout with h | h
      · exact Or.inl h
      · right
        omega
    refine ⟨?_, ?_, ?_, ?_⟩
    · unfold resolveSeed
      rw [hcond]
      rfl
    · unfold resolveSeed
      rw [hcond]
      simp
    · unfold resolveSeed
      rw [hcond]
      simp only [if_true]
      omega
    · intro v hv
      refine ⟨v, by unfold validDraw npRandintHi; omega, ?_⟩
      unfold resolveSeed
      rw [hcond]
      rfl
  · intro h0 h1
    unfold resolveSeed
    have hcond : (sd < 0 || sd > 2 ^ 31 - 1) = false := by
      simp only [Bool.or_eq_false_iff, decide_eq_false_iff_not]
      constructor <;> omega
    rw [hcond]
    rfl

/-- Witness for the C2 amended theorem: the in-range seed `7` is kept
verbatim and the out-of-range default `-1` becomes the draw `5`. -/
theorem seed_normalization_witness :
    validDraw 5 ∧ resolveSeed 7 5 = 7 ∧ resolveSeed (-1) 5 = 5 := by
  refine ⟨?_, ?_, ?_⟩
  · unfold validDraw npRandintHi
    norm_num
  · exact (seed_normalization 7 5 (by unfold validDraw npRandintHi; norm_num)).2
      (by norm_num) (by norm_num)
  · exact ((seed_normalization (-1) 5 (by unfold validDraw npRandintHi; norm_num)).1
      (Or.inl (by norm_num))).1

/-- Destructuring of membership in the `/voices` catalog: a listed profile
comes from a root subdirectory whose qualifying variations are non-empty. -/
theorem mem_list_voices {s : Storage} {p : VoiceProfile} (hp : p ∈ list_voices s) :
    ∃ e, e ∈ s.entries ∧ e.isDir = true ∧ entryVariations e ≠ [] ∧
      p = ⟨e.name, entryVariations e⟩ := by
  unfold list_voices at hp
  cases hr : s.rootExists with
  | false =>
    rw [hr] at hp
    simp at hp
  | true =>
    rw [hr] at hp
    simp only [Bool.not_true, Bool.false_eq_true, if_false] at hp
    obtain ⟨e, he, hfe⟩ := List.mem_filterMap.mp hp
    cases hdir : e.isDir with
    | false =>
      rw [hdir] at hfe
      simp at hfe
    | true =>
      rw [hdir] at hfe
      simp only [if_true] at hfe
      by_cases hv : entryVariations e != []
      · rw [if_pos hv] at hfe
        exact ⟨e, he, hdir, by simpa using hv, (Option.some.inj hfe).symm⟩
      · rw [if_neg hv] at hfe
        cases hfe

/-- Destructuring of membership in a directory's qualifying variations: the
variation is the stem of a `.wav` file whose `.txt` sidecar exists. -/
theorem mem_entryVariations {e : RootEntry} {v : String} (hv : v ∈ entryVariations e) :
    ∃ f, f ∈ e.files ∧ strEndsWith f.name ".wav" = true ∧ wavStem f.name = v ∧
      ∃ g, g ∈ e.files ∧ g.name = v ++ ".txt" := by
  unfold entryVariations at hv
  obtain ⟨f, hf, hfe⟩ := List.mem_filterMap.mp hv
  by_cases hw : strEndsWith f.name ".wav"
  · rw [if_pos hw] at hfe
    by_cases ht : hasTxtSidecar e (wavStem f.name)
    · rw [if_pos ht] at hfe
      obtain rfl : wavStem f.name = v := Option.some.inj hfe
      unfold hasTxtSidecar at ht
      rw [Option.isSome_iff_exists] at ht
      obtain ⟨g, hg⟩ := ht
      exact ⟨f, hf, hw, rfl,
        g, List.mem_of_find?_eq_some hg, by simpa using List.find?_some hg⟩
    · rw [if_neg ht] at hfe
      cases hfe
  · rw [if_neg hw] at hfe
    cases hfe

/-- C5: the `/voices` catalog is sound for every directory state: a
variation is listed under a voice only if that voice's directory holds a
`.wav` file with that stem together with the same-named `.txt` sidecar
(so a `.wav` lacking its sidecar never appears), and — for entry names
without duplicates, as on a real filesystem — a directory with zero
qualifying variations is omitted from the result entirely. -/
theorem list_voices_sound (s : Storage)
    (hnd : (s.entries.map RootEntry.name).Nodup) :
    (∀ p ∈ list_voices s, p.variations ≠ [] ∧
      ∀ v ∈ p.variations, ∃ e, e ∈ s.entries ∧ e.isDir = true ∧ e.name = p.voice_id ∧
        (∃ f, f ∈ e.files ∧ strEndsWith f.name ".wav" = true ∧ wavStem f.name = v) ∧
        (∃ g, g ∈ e.files ∧ g.name = v ++ ".txt")) ∧
    (∀ e, e ∈ s.entries → e.isDir = true → entryVariations e = [] →
      ∀ p ∈ list_voices s, p.voice_id ≠ e.name) := by
  constructor
  · intro p hp
    obtain ⟨e, he, hdir, hne, rfl⟩ := mem_list_voices hp
    refine ⟨hne, ?_⟩
    intro v hv
    obtain ⟨f, hf, hw, hstem, g, hg, hgname⟩ := mem_entryVariations hv
    exact ⟨e, he, hdir, rfl, ⟨f, hf, hw, hstem⟩, ⟨g, hg, hgname⟩⟩
  · intro e he _hdir hempty p hp hname
    obtain ⟨e2, he2, _hdir2, hne2, rfl⟩ := mem_list_voices hp
    have : e2 = e := List.inj_on_of_nodup_map hnd he2 he hname
    rw [this, hempty] at hne2
    exact hne2 rfl

/-- Witness for C5 at the concrete storage: `alice` is listed with the one
variation `alice` (the sidecar-less `formal.wav` is excluded), and the
listed variation is backed by its `.wav`/`.txt` pair. -/
theorem list_voices_sound_witness :
    (exStorage.entries.map RootEntry.name).Nodup ∧
    list_voices exStorage = [⟨"alice", ["alice"]⟩] ∧
    (∀ p ∈ list_voices exStorage, p.variations ≠ [] ∧
      ∀ v ∈ p.variations, ∃ e, e ∈ exStorage.entries ∧ e.isDir = true ∧ e.name = p.voice_id ∧
        (∃ f, f ∈ e.files ∧ strEndsWith f.name ".wav" = true ∧ wavStem f.name = v) ∧
        (∃ g, g ∈ e.files ∧ g.name = v ++ ".txt")) :=
  ⟨by decide, by decide, (list_voices_sound exStorage (by decide)).1⟩

/-- Emptiness of the stripped text forces emptiness bookkeeping: stripping
the empty string yields the empty string, so a non-empty stripped text also
has non-empty raw text, and the handler's text condition is false. -/
theorem text_condition_false {t : String} (h : pyStrip t ≠ "") :
    (t == "" || pyStrip t == "") = false := by
  have hne : t ≠ "" := by
    intro he
    exact h (by rw [he]; rfl)
  simp only [Bool.or_eq_false_iff, beq_eq_false_iff_ne, ne_eq]
  exact ⟨hne, h⟩

/-- C9: a request whose JSON body explicitly set `seed` to `null` parses to
`seed = None`; once the existence checks and the text check pass, the
comparison `seed < 0` raises a `TypeError` inside the catch-all `try`
block, so the call answers 500 with the interpreter's message — instead of
treating `null` like the out-of-range sentinel and drawing a fresh seed.
No preprocessing, inference or artifact creation happens. -/
theorem generate_null_seed (s : Storage) (req : GenerateRequest) (env : EngineEnv)
    (hdir : voiceDirExists s req.voice_id = true)
    (hwav : fileExistsUnder s req.voice_id (resolvedVariation req ++ ".wav") = true)
    (htxt : fileExistsUnder s req.voice_id (resolvedVariation req ++ ".txt") = true)
    (htext : pyStrip req.text ≠ "")
    (hseed : req.seed = none) :
    generate_speech s req env =
      ⟨.error 500 ("Model inference error: " ++ noneLtErrorMsg), false, false⟩ := by
  have hcond := text_condition_false htext
  unfold generate_speech
  rw [hseed]
  simp [hdir, hwav, htxt, hcond, setSeedStep]

/-- Witness for C9 at the concrete null-seed request against voice `alice`. -/
theorem generate_null_seed_witness :
    voiceDirExists exStorage reqNullSeed.voice_id = true ∧
    fileExistsUnder exStorage reqNullSeed.voice_id (resolvedVariation reqNullSeed ++ ".wav") = true ∧
    fileExistsUnder exStorage reqNullSeed.voice_id (resolvedVariation reqNullSeed ++ ".txt") = true ∧
    pyStrip reqNullSeed.text ≠ "" ∧ reqNullSeed.seed = none ∧
    generate_speech exStorage reqNullSeed exEnvOk =
      ⟨.error 500 ("Model inference error: " ++ noneLtErrorMsg), false, false⟩ :=
  ⟨by decide, by decide, by decide, by decide, rfl,
    generate_null_seed exStorage reqNullSeed exEnvOk (by decide) (by decide) (by decide)
      (by decide) rfl⟩

/-- C10: once the existence checks and the text validation have passed,
every exception raised inside the `try` block — the seed-setting
`TypeError` on a `None` seed, a preprocessing failure, an inference
failure, or an encoder failure while writing the temporary file — is
mapped to HTTP 500 whose detail is exactly `"Model inference error: "`
followed by the original message; so these 500s are not limited to the
engine call itself and the underlying message is always preserved. -/
theorem generate_try_block_error_mapping (s : Storage) (req : GenerateRequest)
    (env : EngineEnv) (m : String)
    (hdir : voiceDirExists s req.voice_id = true)
    (hwav : fileExistsUnder s req.voice_id (resolvedVariation req ++ ".wav") = true)
    (htxt : fileExistsUnder s req.voice_id (resolvedVariation req ++ ".txt") = true)
    (htext : pyStrip req.text ≠ "")
    (hfail :
      (req.seed = none ∧ m = noneLtErrorMsg) ∨
      ((∃ z, req.seed = some z) ∧ env.preprocessOutcome = .error m) ∨
      ((∃ z, req.seed = some z) ∧ env.preprocessOutcome = .ok () ∧
        env.inferOutcome = .error m) ∨
      ((∃ z, req.seed = some z) ∧ env.preprocessOutcome = .ok () ∧
        env.inferOutcome = .ok () ∧ env.writeOutcome = .error m)) :
    (generate_speech s req env).response =
      .error 500 ("Model inference error: " ++ m) := by
  have hcond := text_condition_false htext
  unfold generate_speech
  rcases hfail with ⟨hseed, rfl⟩ | ⟨⟨z, hseed⟩, hpre⟩ |
    ⟨⟨z, hseed⟩, hpre, hinf⟩ | ⟨⟨z, hseed⟩, hpre, hinf, hwr⟩
  · rw [hseed]
    simp [hdir, hwav, htxt, hcond, setSeedStep]
  · rw [hseed, hpre]
    simp [hdir, hwav, htxt, hcond, setSeedStep]
  · rw [hseed, hpre, hinf]
    simp [hdir, hwav, htxt, hcond, setSeedStep]
  · rw [hseed, hpre, hinf, hwr]
    simp [hdir, hwav, htxt, hcond, setSeedStep]

/-- Witness for C10 in its encoder-failure case: `sf.write` fails while
writing the temporary file and the 500 detail preserves its message. -/
theorem generate_try_block_error_mapping_witness :
    voiceDirExists exStorage reqAliceHello.voice_id = true ∧
    fileExistsUnder exStorage reqAliceHello.voice_id (resolvedVariation reqAliceHello ++ ".wav") = true ∧
    fileExistsUnder exStorage reqAliceHello.voice_id (resolvedVariation reqAliceHello ++ ".txt") = true ∧
    pyStrip reqAliceHello.text ≠ "" ∧
    envWriteFails.writeOutcome = .error "Format not recognised." ∧
    (generate_speech exStorage reqAliceHello envWriteFails).response =
      .error 500 ("Model inference error: " ++ "Format not recognised.") :=
  ⟨by decide, by decide, by decide, by decide, rfl,
    generate_try_block_error_mapping exStorage reqAliceHello envWriteFails
      "Format not recognised." (by decide) (by decide) (by decide) (by decide)
      (Or.inr (Or.inr (Or.inr ⟨⟨-1, rfl⟩, rfl, rfl, rfl⟩)))⟩

/-- Existence of a reference file under a voice implies the voice
directory's own existence check passes. -/
theorem fileExistsUnder_voiceDirExists {s : Storage} {vid fname : String}
    (h : fileExistsUnder s vid fname = true) :
    voiceDirExists s vid = true := by
  unfold fileExistsUnder at h
  unfold voiceDirExists
  cases hr : s.rootExists with
  | false =>
    rw [hr] at h
    simp at h
  | true =>
    rw [hr] at h
    simp only [Bool.not_true, Bool.false_eq_true, if_false] at h
    cases hv : (vid == "") with
    | true => simp [hv]
    | false =>
      rw [hv] at h
      simp only [Bool.false_eq_true, if_false] at h
      cases hfind : s.entries.find? (fun e => e.name == vid) with
      | none =>
        rw [hfind] at h
        cases h
      | some e =>
        simp [hfind]

/-- A successful `/generate` response presupposes that all three existence
checks passed. -/
theorem generate_success_checks {s : Storage} {req : GenerateRequest} {env : EngineEnv}
    {pth mt fn : String}
    (h : (generate_speech s req env).response = .file pth mt fn) :
    voiceDirExists s req.voice_id = true ∧
    fileExistsUnder s req.voice_id (resolvedVariation req ++ ".wav") = true ∧
    fileExistsUnder s req.voice_id (resolvedVariation req ++ ".txt") = true := by
  cases h1 : voiceDirExists s req.voice_id with
  | false =>
    unfold generate_speech at h
    rw [h1] at h
    simp at h
  | true =>
    cases h2 : fileExistsUnder s req.voice_id (resolvedVariation req ++ ".wav") with
    | false =>
      unfold generate_speech at h
      rw [h1, h2] at h
      simp at h
    | true =>
      cases h3 : fileExistsUnder s req.voice_id (resolvedVariation req ++ ".txt") with
      | false =>
        unfold generate_speech at h
        rw [h1, h2, h3] at h
        simp at h
      | true => exact ⟨rfl, rfl, rfl⟩

/-- C4 counterexample: voice `alice` owns the complete pair
`alice.wav`/`alice.txt` and the request omits `variation`, yet generation
does not succeed — the empty text is rejected with the 400 — so "succeeds
iff the pair exists" fails as stated. -/
theorem generate_default_variation_counterexample :
    resolvedVariation reqAliceBlank = reqAliceBlank.voice_id ∧
    fileExistsUnder exStorage reqAliceBlank.voice_id (reqAliceBlank.voice_id ++ ".wav") = true ∧
    fileExistsUnder exStorage reqAliceBlank.voice_id (reqAliceBlank.voice_id ++ ".txt") = true ∧
    (generate_speech exStorage reqAliceBlank exEnvOk).response =
      .error 400 "Text parameter is required and cannot be empty" := by
  refine ⟨by decide, by decide, by decide, by decide⟩

/-- C4 amended: for every request that omits `variation`, the variation
resolves to `voice_id`, and — provided the text survives validation, the
seed is an integer, and the engine preprocessing, inference and encoding
all succeed — generation succeeds exactly when the voice directory holds
the matching `voice_id.wav`/`voice_id.txt` pair. -/
theorem generate_default_variation (s : Storage) (req : GenerateRequest) (env : EngineEnv)
    (z : Int)
    (hvar : req.variation = none)
    (htext : pyStrip req.text ≠ "")
    (hseed : req.seed = some z)
    (hpre : env.preprocessOutcome = .ok ())
    (hinf : env.inferOutcome = .ok ())
    (hwr : env.writeOutcome = .ok ()) :
    resolvedVariation req = req.voice_id ∧
    ((∃ pth mt fn, (generate_speech s req env).response = .file pth mt fn) ↔
      (fileExistsUnder s req.voice_id (req.voice_id ++ ".wav") = true ∧
       fileExistsUnder s req.voice_id (req.voice_id ++ ".txt") = true)) := by
  have hres : resolvedVariation req = req.voice_id := by
    unfold resolvedVariation
    rw [hvar]
  have hcond := text_condition_false htext
  refine ⟨hres, ?_, ?_⟩
  · rintro ⟨pth, mt, fn, hfile⟩
    have := generate_success_checks hfile
    rw [hres] at this
    exact ⟨this.2.1, this.2.2⟩
  · rintro ⟨hwav, htxt⟩
    have hdir : voiceDirExists s req.voice_id = true := fileExistsUnder_voiceDirExists hwav
    have hgen : generate_speech s req env =
        ⟨.file env.tmpName "audio/wav" (req.voice_id ++ "_" ++ resolvedVariation req ++ ".wav"),
          true, true⟩ := by
      unfold generate_speech
      rw [hres, hseed, hpre, hinf, hwr]
      simp [hdir, hwav, htxt, hcond, setSeedStep]
    exact ⟨env.tmpName, "audio/wav", req.voice_id ++ "_" ++ resolvedVariation req ++ ".wav",
      by rw [hgen]⟩

/-- Witness for the C4 amended theorem: the variation-less request for
`alice` with non-empty text succeeds, matching the existing pair. -/
theorem generate_default_variation_witness :
    reqAliceHello.variation = none ∧ pyStrip reqAliceHello.text ≠ "" ∧
    reqAliceHello.seed = some (-1) ∧
    exEnvOk.preprocessOutcome = .ok () ∧ exEnvOk.inferOutcome = .ok () ∧
    exEnvOk.writeOutcome = .ok () ∧
    (resolvedVariation reqAliceHello = reqAliceHello.voice_id ∧
      ((∃ pth mt fn, (generate_speech exStorage reqAliceHello exEnvOk).response = .file pth mt fn) ↔
        (fileExistsUnder exStorage reqAliceHello.voice_id (reqAliceHello.voice_id ++ ".wav") = true ∧
         fileExistsUnder exStorage reqAliceHello.voice_id (reqAliceHello.voice_id ++ ".txt") = true))) :=
  ⟨rfl, by decide, rfl, rfl, rfl, rfl,
    generate_default_variation exStorage reqAliceHello exEnvOk (-1) rfl (by decide) rfl
      rfl rfl rfl⟩

end ByovTts
